import Mathlib

/-!
# Verification of the ruspiro-gpio GPIO peripheral driver

Shallow embedding of the Raspberry Pi GPIO driver (`src/lib.rs`, `src/gpio.rs`,
`src/pin.rs`, `src/interface.rs`) and proofs about its pin registry, peripheral
ownership gate, pull-up/down handshake, event-handler registration and the
interrupt dispatch loops.

Machine integers (`u32`) are modelled as `Nat` with explicit 32-bit masking
where the source relies on wrap-around or complement; fallible or panicking
code paths return `Option` (with `none` standing for a Rust panic such as an
out-of-bounds array index or `unimplemented!()`).
-/

namespace RuspiroGpio

/-- The GPIO detect events from `GpioEvent` (re-exported HAL enum used by
`src/interface.rs` and `src/gpio.rs`). -/
inductive GpioEvent where
  | risingEdge
  | fallingEdge
  | bothEdges
  | high
  | low
  | asyncRisingEdge
  | asyncFallingEdge
  | asyncBothEdges
  deriving DecidableEq, Repr

/-- The twelve event detect-enable registers (GPREN/GPFEN/GPHEN/GPLEN/GPAREN/GPAFEN
for bank 0 and bank 1) defined in `src/interface.rs`. -/
structure Regs where
  gpren0 : Nat
  gpfen0 : Nat
  gphen0 : Nat
  gplen0 : Nat
  gparen0 : Nat
  gpafen0 : Nat
  gpren1 : Nat
  gpfen1 : Nat
  gphen1 : Nat
  gplen1 : Nat
  gparen1 : Nat
  gpafen1 : Nat
  deriving DecidableEq, Repr

/-- All twelve detect-enable registers hold the value 0. -/
def Regs.zero : Regs := ⟨0, 0, 0, 0, 0, 0, 0, 0, 0, 0, 0, 0⟩

/-- Mask of a full 32-bit register, used to model the `u32` complement `!`. -/
def mask32 : Nat := 2 ^ 32 - 1

/-- Read-modify-write of a register field, as performed by the external
`ruspiro-mmio-register` crate's `modify(RegisterField::new(mask, shift), value)`:
the field bits are cleared with the complemented shifted mask and the new value
is or-ed in. -/
def modifyField (old mask shift value : Nat) : Nat :=
  (old &&& (mask32 ^^^ (mask <<< shift))) ||| ((value &&& mask) <<< shift)

/-- Model of `activate_detect_event` in `src/interface.rs`: writes 1 into the
one-bit field at position `pin & 31` of the enable register(s) matching the
event, in the bank selected by `pin / 32`; composite events touch two
registers; any other bank value does nothing (`_ => ()`). -/
def activate_detect_event (pin : Nat) (event : GpioEvent) (r : Regs) : Regs :=
  let slot := pin &&& 31
  match pin / 32 with
  | 0 =>
    match event with
    | .risingEdge => { r with gpren0 := modifyField r.gpren0 1 slot 1 }
    | .fallingEdge => { r with gpfen0 := modifyField r.gpfen0 1 slot 1 }
    | .bothEdges =>
        { r with gpren0 := modifyField r.gpren0 1 slot 1,
                 gpfen0 := modifyField r.gpfen0 1 slot 1 }
    | .high => { r with gphen0 := modifyField r.gphen0 1 slot 1 }
    | .low => { r with gplen0 := modifyField r.gplen0 1 slot 1 }
    | .asyncRisingEdge => { r with gparen0 := modifyField r.gparen0 1 slot 1 }
    | .asyncFallingEdge => { r with gpafen0 := modifyField r.gpafen0 1 slot 1 }
    | .asyncBothEdges =>
        { r with gparen0 := modifyField r.gparen0 1 slot 1,
                 gpafen0 := modifyField r.gpafen0 1 slot 1 }
  | 1 =>
    match event with
    | .risingEdge => { r with gpren1 := modifyField r.gpren1 1 slot 1 }
    | .fallingEdge => { r with gpfen1 := modifyField r.gpfen1 1 slot 1 }
    | .bothEdges =>
        { r with gpren1 := modifyField r.gpren1 1 slot 1,
                 gpfen1 := modifyField r.gpfen1 1 slot 1 }
    | .high => { r with gphen1 := modifyField r.gphen1 1 slot 1 }
    | .low => { r with gplen1 := modifyField r.gplen1 1 slot 1 }
    | .asyncRisingEdge => { r with gparen1 := modifyField r.gparen1 1 slot 1 }
    | .asyncFallingEdge => { r with gpafen1 := modifyField r.gpafen1 1 slot 1 }
    | .asyncBothEdges =>
        { r with gparen1 := modifyField r.gparen1 1 slot 1,
                 gpafen1 := modifyField r.gpafen1 1 slot 1 }
  | _ => r

/-- Model of `deactivate_detect_event` in `src/interface.rs`: identical to
`activate_detect_event` but writes 0 into the one-bit field. -/
def deactivate_detect_event (pin : Nat) (event : GpioEvent) (r : Regs) : Regs :=
  let slot := pin &&& 31
  match pin / 32 with
  | 0 =>
    match event with
    | .risingEdge => { r with gpren0 := modifyField r.gpren0 1 slot 0 }
    | .fallingEdge => { r with gpfen0 := modifyField r.gpfen0 1 slot 0 }
    | .bothEdges =>
        { r with gpren0 := modifyField r.gpren0 1 slot 0,
                 gpfen0 := modifyField r.gpfen0 1 slot 0 }
    | .high => { r with gphen0 := modifyField r.gphen0 1 slot 0 }
    | .low => { r with gplen0 := modifyField r.gplen0 1 slot 0 }
    | .asyncRisingEdge => { r with gparen0 := modifyField r.gparen0 1 slot 0 }
    | .asyncFallingEdge => { r with gpafen0 := modifyField r.gpafen0 1 slot 0 }
    | .asyncBothEdges =>
        { r with gparen0 := modifyField r.gparen0 1 slot 0,
                 gpafen0 := modifyField r.gpafen0 1 slot 0 }
  | 1 =>
    match event with
    | .risingEdge => { r with gpren1 := modifyField r.gpren1 1 slot 0 }
    | .fallingEdge => { r with gpfen1 := modifyField r.gpfen1 1 slot 0 }
    | .bothEdges =>
        { r with gpren1 := modifyField r.gpren1 1 slot 0,
                 gpfen1 := modifyField r.gpfen1 1 slot 0 }
    | .high => { r with gphen1 := modifyField r.gphen1 1 slot 0 }
    | .low => { r with gplen1 := modifyField r.gplen1 1 slot 0 }
    | .asyncRisingEdge => { r with gparen1 := modifyField r.gparen1 1 slot 0 }
    | .asyncFallingEdge => { r with gpafen1 := modifyField r.gpafen1 1 slot 0 }
    | .asyncBothEdges =>
        { r with gparen1 := modifyField r.gparen1 1 slot 0,
                 gpafen1 := modifyField r.gpafen1 1 slot 0 }
  | _ => r

/-- Names for the twelve detect-enable registers, used to state which registers
an operation touches. -/
inductive EnableReg where
  | ren0
  | fen0
  | hen0
  | len0
  | aren0
  | afen0
  | ren1
  | fen1
  | hen1
  | len1
  | aren1
  | afen1
  deriving DecidableEq, Repr

/-- Read a named detect-enable register out of the register block. -/
def Regs.read (r : Regs) : EnableReg → Nat
  | .ren0 => r.gpren0
  | .fen0 => r.gpfen0
  | .hen0 => r.gphen0
  | .len0 => r.gplen0
  | .aren0 => r.gparen0
  | .afen0 => r.gpafen0
  | .ren1 => r.gpren1
  | .fen1 => r.gpfen1
  | .hen1 => r.gphen1
  | .len1 => r.gplen1
  | .aren1 => r.gparen1
  | .afen1 => r.gpafen1

/-- The six detect-enable registers belonging to a bank (empty for an invalid
bank number). -/
def bankEnableRegs : Nat → List EnableReg
  | 0 => [.ren0, .fen0, .hen0, .len0, .aren0, .afen0]
  | 1 => [.ren1, .fen1, .hen1, .len1, .aren1, .afen1]
  | _ => []

/-- The detect-enable register(s) a given event maps to in a given bank,
following the match arms of `activate_detect_event` / `deactivate_detect_event`
in `src/interface.rs` (composite events map to two registers). -/
def eventEnableRegs (bank : Nat) (event : GpioEvent) : List EnableReg :=
  match bank with
  | 0 =>
    match event with
    | .risingEdge => [.ren0]
    | .fallingEdge => [.fen0]
    | .bothEdges => [.ren0, .fen0]
    | .high => [.hen0]
    | .low => [.len0]
    | .asyncRisingEdge => [.aren0]
    | .asyncFallingEdge => [.afen0]
    | .asyncBothEdges => [.aren0, .afen0]
  | 1 =>
    match event with
    | .risingEdge => [.ren1]
    | .fallingEdge => [.fen1]
    | .bothEdges => [.ren1, .fen1]
    | .high => [.hen1]
    | .low => [.len1]
    | .asyncRisingEdge => [.aren1]
    | .asyncFallingEdge => [.afen1]
    | .asyncBothEdges => [.aren1, .afen1]
  | _ => []

example : activate_detect_event 17 .risingEdge Regs.zero =
    { Regs.zero with gpren0 := 2 ^ 17 } := by decide

example : deactivate_detect_event 40 .risingEdge
    { Regs.zero with gpren1 := 256, gpfen1 := 256 } =
    { Regs.zero with gpfen1 := 256 } := by decide

/-- State of one GPIO interrupt bank: the non-blocking access guard
(`GPIO_BANK0_ACCESS` / `GPIO_BANK1_ACCESS`), the recurring ("multi call")
handler slots (`BANK*_HANDLER_MC`) and the one-shot ("single call") handler
slots (`BANK*_HANDLER_SC`). Handlers are opaque values of types `γ` (`FnMut`)
and `δ` (`FnOnce`). In the program the bank 0 arrays have 32 entries and the
bank 1 arrays 22 entries. -/
structure BankState (γ δ : Type) where
  guard : Bool
  mcSlots : List (Option γ)
  scSlots : List (Option δ)
  deriving DecidableEq, Repr

/-- Observable actions of a dispatch pass: the acknowledgment write of the
event-status bit pattern and the invocation of a stored one-shot or recurring
handler for a pin-in-bank index. -/
inductive Action (γ δ : Type) where
  | ack (pattern : Nat)
  | invokeSC (pin : Nat) (cb : δ)
  | invokeMC (pin : Nat) (cb : γ)
  deriving DecidableEq, Repr

/-- Loop body of `handle_gpio_bank0` / `handle_gpio_bank1` in `src/gpio.rs`:
`while trigger_gpios != 0 { if CAS on the guard succeeds { take and invoke the
one-shot slot, releasing the guard before the call; invoke the recurring slot
in place, releasing the guard before the call }; trigger_gpios >>= 1; pin += 1 }`.
Indexing a slot array out of bounds is a Rust panic, modelled as `none`. -/
def dispatchLoop {γ δ : Type} (gpios pin : Nat) (st : BankState γ δ) :
    Option (BankState γ δ × List (Action γ δ)) :=
  if h : gpios = 0 then some (st, [])
  else
    if st.guard then
      -- compare_and_swap returns `true`: skip this pin for this pass
      dispatchLoop (gpios >>> 1) (pin + 1) st
    else
      -- compare_and_swap succeeded, the guard is now set
      match st.scSlots[pin]?, st.mcSlots[pin]? with
      | some scv, some mcv =>
        -- `take()` of the single-call slot leaves `None` behind
        let scSlots' := match scv with
          | some _ => st.scSlots.set pin none
          | none => st.scSlots
        -- the guard is stored back to `false` only just before a handler call
        let guard1 : Bool := match scv with
          | some _ => false
          | none => true
        let guard2 : Bool := match mcv with
          | some _ => false
          | none => guard1
        let tr0 : List (Action γ δ) :=
          (match scv with
            | some f => [Action.invokeSC pin f]
            | none => []) ++
          (match mcv with
            | some f => [Action.invokeMC pin f]
            | none => [])
        (dispatchLoop (gpios >>> 1) (pin + 1) ⟨guard2, st.mcSlots, scSlots'⟩).map
          (fun r => (r.1, tr0 ++ r.2))
      | _, _ => none
  termination_by gpios
  decreasing_by
    all_goals
      rw [Nat.shiftRight_one]
      exact Nat.div_lt_self (Nat.pos_of_ne_zero h) one_lt_two

/-- Model of `handle_gpio_bank0` in `src/gpio.rs`: read the detect status
(`events` is the value the read returns), write it back to the status register
(the `ack` action) and run the handler loop over the bank 0 state. -/
def handle_gpio_bank0 {γ δ : Type} (events : Nat) (st : BankState γ δ) :
    Option (BankState γ δ × List (Action γ δ)) :=
  (dispatchLoop events 0 st).map (fun r => (r.1, Action.ack events :: r.2))

/-- Model of `handle_gpio_bank1` in `src/gpio.rs`: identical code to
`handle_gpio_bank0`, operating on the bank 1 state (whose slot arrays have 22
entries in the program). -/
def handle_gpio_bank1 {γ δ : Type} (events : Nat) (st : BankState γ δ) :
    Option (BankState γ δ × List (Action γ δ)) :=
  (dispatchLoop events 0 st).map (fun r => (r.1, Action.ack events :: r.2))

/-- State touched by the event-handler API of `src/gpio.rs`: the two banks'
guard/slot state plus the detect-enable registers. -/
structure GpioState (γ δ : Type) where
  bank0 : BankState γ δ
  bank1 : BankState γ δ
  regs : Regs
  deriving DecidableEq, Repr

/-- Model of `Gpio::register_event_handler_always` in `src/gpio.rs`: compute
`slot = id & 31` and `bank = id / 32`; if the bank guard CAS succeeds, store
the handler in the recurring (MC) slot, clear the one-shot (SC) slot and
release the guard; if the CAS fails, the slots are untouched; banks other than
0 and 1 hit `unimplemented!()` (`none`). In all non-panicking cases
`activate_detect_event` is then called unconditionally. Array indexing out of
bounds is a panic (`none`). -/
def register_event_handler_always {γ δ : Type} (pin : Nat) (event : GpioEvent)
    (handler : γ) (s : GpioState γ δ) : Option (GpioState γ δ) :=
  let slot := pin &&& 31
  match pin / 32 with
  | 0 =>
    if s.bank0.guard then
      some { s with regs := activate_detect_event pin event s.regs }
    else
      match s.bank0.mcSlots[slot]?, s.bank0.scSlots[slot]? with
      | some _, some _ =>
        some { s with
          bank0 := ⟨false, s.bank0.mcSlots.set slot (some handler),
                    s.bank0.scSlots.set slot none⟩,
          regs := activate_detect_event pin event s.regs }
      | _, _ => none
  | 1 =>
    if s.bank1.guard then
      some { s with regs := activate_detect_event pin event s.regs }
    else
      match s.bank1.mcSlots[slot]?, s.bank1.scSlots[slot]? with
      | some _, some _ =>
        some { s with
          bank1 := ⟨false, s.bank1.mcSlots.set slot (some handler),
                    s.bank1.scSlots.set slot none⟩,
          regs := activate_detect_event pin event s.regs }
      | _, _ => none
  | _ => none

/-- Model of `Gpio::register_event_handler_onetime` in `src/gpio.rs`: symmetric
to `register_event_handler_always`, storing into the one-shot (SC) slot and
clearing the recurring (MC) slot, then calling `activate_detect_event`
unconditionally. -/
def register_event_handler_onetime {γ δ : Type} (pin : Nat) (event : GpioEvent)
    (handler : δ) (s : GpioState γ δ) : Option (GpioState γ δ) :=
  let slot := pin &&& 31
  match pin / 32 with
  | 0 =>
    if s.bank0.guard then
      some { s with regs := activate_detect_event pin event s.regs }
    else
      match s.bank0.scSlots[slot]?, s.bank0.mcSlots[slot]? with
      | some _, some _ =>
        some { s with
          bank0 := ⟨false, s.bank0.mcSlots.set slot none,
                    s.bank0.scSlots.set slot (some handler)⟩,
          regs := activate_detect_event pin event s.regs }
      | _, _ => none
  | 1 =>
    if s.bank1.guard then
      some { s with regs := activate_detect_event pin event s.regs }
    else
      match s.bank1.scSlots[slot]?, s.bank1.mcSlots[slot]? with
      | some _, some _ =>
        some { s with
          bank1 := ⟨false, s.bank1.mcSlots.set slot none,
                    s.bank1.scSlots.set slot (some handler)⟩,
          regs := activate_detect_event pin event s.regs }
      | _, _ => none
  | _ => none

/-- Model of `Gpio::unregister_event_handler` in `src/gpio.rs`: if the bank
guard CAS succeeds, both slots for the pin are cleared and the guard released;
otherwise the slots are untouched; `deactivate_detect_event` for the given
event is then called unconditionally. -/
def unregister_event_handler {γ δ : Type} (pin : Nat) (event : GpioEvent)
    (s : GpioState γ δ) : Option (GpioState γ δ) :=
  let slot := pin &&& 31
  match pin / 32 with
  | 0 =>
    if s.bank0.guard then
      some { s with regs := deactivate_detect_event pin event s.regs }
    else
      match s.bank0.scSlots[slot]?, s.bank0.mcSlots[slot]? with
      | some _, some _ =>
        some { s with
          bank0 := ⟨false, s.bank0.mcSlots.set slot none,
                    s.bank0.scSlots.set slot none⟩,
          regs := deactivate_detect_event pin event s.regs }
      | _, _ => none
  | 1 =>
    if s.bank1.guard then
      some { s with regs := deactivate_detect_event pin event s.regs }
    else
      match s.bank1.scSlots[slot]?, s.bank1.mcSlots[slot]? with
      | some _, some _ =>
        some { s with
          bank1 := ⟨false, s.bank1.mcSlots.set slot none,
                    s.bank1.scSlots.set slot none⟩,
          regs := deactivate_detect_event pin event s.regs }
      | _, _ => none
  | _ => none

/-- Model of the `GpioPin` of `src/pin.rs` together with its `PinConfig`:
registers are represented by their selector data (function-select register
number and shift, bank of the set/clear/level and pull-clock registers, the
pin's bit mask). -/
structure GpioPin where
  id : Nat
  fselReg : Nat
  fselShift : Nat
  setclrBank : Nat
  levelBank : Nat
  setclrVal : Nat
  pudclkBank : Nat
  pudVal : Nat
  deriving DecidableEq, Repr

/-- Model of `GpioPin::new` in `src/pin.rs`: `fsel_register_num = id / 10`
selects one of GPFSEL0..GPFSEL5 (any other value hits the defensive
`unreachable!()`, modelled as `none`), `fsel_value_shift = (id % 10) * 3`, the
set/clear/level and pull-clock registers are the bank 0 ones when `id < 32`
and the bank 1 ones otherwise, and both bit masks are `1 << (id % 32)`. -/
def GpioPin.new (id : Nat) : Option GpioPin :=
  let fsel_register_num := id / 10
  let fsel_value_shift := (id % 10) * 3
  if fsel_register_num ≤ 5 then
    some { id := id
           fselReg := fsel_register_num
           fselShift := fsel_value_shift
           setclrBank := if id < 32 then 0 else 1
           levelBank := if id < 32 then 0 else 1
           setclrVal := 1 <<< (id % 32)
           pudclkBank := if id < 32 then 0 else 1
           pudVal := 1 <<< (id % 32) }
  else none

/-- The pull-up/down configuration codes of the `Pud` enum in
`src/interface.rs`. -/
inductive Pud where
  | disabled
  | pullDown
  | pullUp
  deriving DecidableEq, Repr

/-- Register value of a `Pud` code (`Disabled = 0b00`, `PullDown = 0b01`,
`PullUp = 0b10`). -/
def Pud.value : Pud → Nat
  | .disabled => 0
  | .pullDown => 1
  | .pullUp => 2

/-- Observable register operations of the pull-up/down handshake:
read-modify-write of the 2-bit PUD field of GPPUD, a busy-wait of a number of
cycles, a raw write to the bank's GPPUDCLK register, and a raw write to
GPPUD. -/
inductive PudAction where
  | pudModify (value : Nat)
  | wait (cycles : Nat)
  | pudclkSet (bank value : Nat)
  | pudSet (value : Nat)
  deriving DecidableEq, Repr

/-- Model of `GpioPin::configure_pud` in `src/pin.rs`, as the trace of register
operations it performs, in program order. -/
def configure_pud (p : GpioPin) (pud : Pud) : List PudAction :=
  [ PudAction.pudModify pud.value,
    PudAction.wait 150,
    PudAction.pudclkSet p.pudclkBank p.pudVal,
    PudAction.wait 150,
    PudAction.pudSet 0,
    PudAction.pudclkSet p.pudclkBank p.pudVal ]

/-- Model of `GpioPin::disable_pud` in `src/pin.rs`. -/
def disable_pud (p : GpioPin) : List PudAction := configure_pud p .disabled

/-- Model of `GpioPin::enable_pud_up` in `src/pin.rs`. -/
def enable_pud_up (p : GpioPin) : List PudAction := configure_pud p .pullUp

/-- Model of `GpioPin::enable_pud_down` in `src/pin.rs`. -/
def enable_pud_down (p : GpioPin) : List PudAction := configure_pud p .pullDown

/-- Errors of the pin acquisition registry, named after the spec's taxonomy;
the program reports them as `GenericError` messages. -/
inductive PinError where
  | invalidPinId
  | pinInUse
  | pinNotInUse
  deriving DecidableEq, Repr

/-- The `Gpio` peripheral struct of `src/gpio.rs` (identical to `GpioRpi` of
`src/lib.rs`): the 54-entry `used_pins` table. -/
structure Gpio where
  used_pins : List Bool
  deriving DecidableEq, Repr

/-- The freshly constructed peripheral: `used_pins: [false; 54]`. -/
def Gpio.fresh : Gpio := ⟨List.replicate 54 false⟩

/-- Model of `GpioRpi::new` in `src/lib.rs` (same code as `Gpio::new` in
`src/gpio.rs`): `compare_and_swap(false, true)` on the `GPIO_ONCE` flag; the
result is the flag value afterwards and the constructed handle on success
(`none` models `Err(())`, which the spec names `AlreadyInstantiated`). -/
def gpioNew (once : Bool) : Bool × Option Gpio :=
  if once then (true, none) else (true, some Gpio.fresh)

/-- Model of `Drop for GpioRpi` in `src/lib.rs`: stores `false` into the
`GPIO_ONCE` flag unconditionally. -/
def gpioDrop (_ : Bool) : Bool := false

/-- Model of `Gpio::use_pin` in `src/gpio.rs`: rejects `id > 53`, reports
"already in use" when the table entry is set, and otherwise hands out
`GpioPin::new(id)` — without modifying `used_pins`. Out-of-bounds table access
is a panic (`none`), unreachable at the real table length 54. -/
def use_pin (g : Gpio) (id : Nat) : Option (Gpio × Except PinError GpioPin) :=
  if id > 53 then some (g, Except.error PinError.invalidPinId)
  else
    match g.used_pins[id]? with
    | none => none
    | some true => some (g, Except.error PinError.pinInUse)
    | some false => (GpioPin.new id).map (fun p => (g, Except.ok p))

/-- Model of `Gpio::release_pin` in `src/gpio.rs`: rejects `id > 53`, reports
"was not in use" when the table entry is clear, and otherwise returns `Ok(())`
— without modifying `used_pins`. -/
def release_pin (g : Gpio) (id : Nat) : Option (Gpio × Except PinError Unit) :=
  if id > 53 then some (g, Except.error PinError.invalidPinId)
  else
    match g.used_pins[id]? with
    | none => none
    | some false => some (g, Except.error PinError.pinNotInUse)
    | some true => some (g, Except.ok ())

/-! ## Helper lemmas about the dispatch loop -/

/-- A nonzero status word strictly shrinks under the per-iteration right
shift. -/
theorem shiftRight_one_lt {w : Nat} (h : w ≠ 0) : w >>> 1 < w := by
  rw [Nat.shiftRight_one]
  exact Nat.div_lt_self (Nat.pos_of_ne_zero h) one_lt_two

/-- Unfolding: the loop terminates silently when the shifted status word is
exhausted. -/
theorem dispatchLoop_zero {γ δ : Type} (p : Nat) (st : BankState γ δ) :
    dispatchLoop 0 p st = some (st, []) := by
  rw [dispatchLoop]
  rfl

/-- Unfolding: when the guard CAS fails the pin is skipped. -/
theorem dispatchLoop_skip {γ δ : Type} (w p : Nat) (st : BankState γ δ)
    (h : w ≠ 0) (hg : st.guard = true) :
    dispatchLoop w p st = dispatchLoop (w >>> 1) (p + 1) st := by
  rw [dispatchLoop, dif_neg h, hg]
  rfl

/-- Unfolding: when the guard CAS succeeds and both slot reads are in bounds,
the one-shot slot is taken and invoked, the recurring slot invoked in place,
and the guard is left set exactly when both slots were empty. -/
theorem dispatchLoop_acquired {γ δ : Type} (w p : Nat) (st : BankState γ δ)
    (h : w ≠ 0) (hg : st.guard = false) (scv : Option δ) (mcv : Option γ)
    (hsc : st.scSlots[p]? = some scv) (hmc : st.mcSlots[p]? = some mcv) :
    dispatchLoop w p st =
      (dispatchLoop (w >>> 1) (p + 1)
        ⟨!(scv.isSome || mcv.isSome),
         st.mcSlots,
         if scv.isSome then st.scSlots.set p none else st.scSlots⟩).map
        (fun r => (r.1,
          ((scv.map (Action.invokeSC p)).toList ++
            (mcv.map (Action.invokeMC p)).toList) ++ r.2)) := by
  rw [dispatchLoop, dif_neg h, hg]
  show (match st.scSlots[p]?, st.mcSlots[p]? with
    | some scv, some mcv => _
    | _, _ => none) = _
  simp only [hsc, hmc]
  cases scv <;> cases mcv <;> rfl

/-- Unfolding: when the guard CAS succeeds but a slot index is out of bounds,
the pass panics. -/
theorem dispatchLoop_panic {γ δ : Type} (w p : Nat) (st : BankState γ δ)
    (h : w ≠ 0) (hg : st.guard = false)
    (hnone : st.scSlots[p]? = none ∨ st.mcSlots[p]? = none) :
    dispatchLoop w p st = none := by
  rw [dispatchLoop, dif_neg h, hg]
  show (match st.scSlots[p]?, st.mcSlots[p]? with
    | some scv, some mcv => _
    | _, _ => none) = _
  rcases hnone with hn | hn
  · rw [hn]
  · rw [hn]
    cases st.scSlots[p]? <;> rfl

/-- Once the guard is stuck set, the remainder of a pass changes nothing and
invokes nothing. -/
theorem dispatchLoop_guard_stuck {γ δ : Type} :
    ∀ (w p : Nat) (st : BankState γ δ), st.guard = true →
      dispatchLoop w p st = some (st, []) := by
  intro w
  induction w using Nat.strong_induction_on with
  | _ w ih =>
    intro p st hg
    by_cases h : w = 0
    · subst h
      exact dispatchLoop_zero p st
    · rw [dispatchLoop_skip w p st h hg]
      exact ih _ (shiftRight_one_lt h) _ _ hg

/-- Structural facts about a completed pass of the handler loop: the recurring
slots are never modified, the trace holds no acknowledge action, one-shot
slots that are empty stay empty, and a one-shot invocation for a pin leaves
that pin's one-shot slot empty. -/
theorem dispatchLoop_props {γ δ : Type} :
    ∀ (w p : Nat) (st st' : BankState γ δ) (tr : List (Action γ δ)),
      dispatchLoop w p st = some (st', tr) →
      st'.mcSlots = st.mcSlots ∧
      (∀ a ∈ tr, ∀ u, a ≠ Action.ack u) ∧
      (∀ q : Nat, st.scSlots[q]? = some none → st'.scSlots[q]? = some none) ∧
      (∀ (q : Nat) (cb : δ), Action.invokeSC q cb ∈ tr → st'.scSlots[q]? = some none) := by
  intro w
  induction w using Nat.strong_induction_on with
  | _ w ih =>
    intro p st st' tr heq
    by_cases h : w = 0
    · subst h
      rw [dispatchLoop_zero] at heq
      simp only [Option.some.injEq, Prod.mk.injEq] at heq
      obtain ⟨rfl, rfl⟩ := heq
      exact ⟨rfl, by simp, fun q hq => hq, by simp⟩
    · cases hg : st.guard with
      | true =>
        rw [dispatchLoop_skip w p st h hg] at heq
        exact ih _ (shiftRight_one_lt h) _ _ _ _ heq
      | false =>
        cases hsc : st.scSlots[p]? with
        | none =>
          rw [dispatchLoop_panic w p st h hg (Or.inl hsc)] at heq
          cases heq
        | some scv =>
          cases hmc : st.mcSlots[p]? with
          | none =>
            rw [dispatchLoop_panic w p st h hg (Or.inr hmc)] at heq
            cases heq
          | some mcv =>
            rw [dispatchLoop_acquired w p st h hg scv mcv hsc hmc] at heq
            obtain ⟨⟨st2', tr2⟩, hrec, heq2⟩ := Option.map_eq_some'.mp heq
            simp only [Prod.mk.injEq] at heq2
            obtain ⟨h21, h22⟩ := heq2
            subst h21
            subst h22
            obtain ⟨ih1, ih2, ih3, ih4⟩ := ih _ (shiftRight_one_lt h) _ _ _ _ hrec
            have hlen : p < st.scSlots.length := by
              have := List.getElem?_eq_some.mp hsc
              exact this.1
            have hsc2 : ∀ q : Nat, st.scSlots[q]? = some none →
                (if scv.isSome then st.scSlots.set p none else st.scSlots)[q]? =
                  some none := by
              intro q hq
              cases scv with
              | none => simpa using hq
              | some f =>
                simp only [Option.isSome_some, if_true]
                by_cases hqp : q = p
                · subst hqp
                  rw [List.getElem?_set_eq_of_lt _ hlen]
                · rw [List.getElem?_set_ne (fun hne => hqp hne.symm)]
                  exact hq
            refine ⟨?_, ?_, ?_, ?_⟩
            · exact ih1
            · intro a ha u
              rcases List.mem_append.mp ha with ha0 | ha2
              · rcases List.mem_append.mp ha0 with hasc | hamc
                · cases scv <;> simp at hasc
                  subst hasc
                  simp
                · cases mcv <;> simp at hamc
                  subst hamc
                  simp
              · exact ih2 a ha2 u
            · intro q hq
              exact ih3 q (hsc2 q hq)
            · intro q cb hmem
              rcases List.mem_append.mp hmem with ha0 | ha2
              · rcases List.mem_append.mp ha0 with hasc | hamc
                · cases scv with
                  | none => simp at hasc
                  | some f =>
                    simp only [Option.map_some', Option.toList_some,
                      List.mem_singleton, Action.invokeSC.injEq] at hasc
                    obtain ⟨rfl, rfl⟩ := hasc
                    refine ih3 q ?_
                    simp only [Option.isSome_some, if_true]
                    rw [List.getElem?_set_eq_of_lt _ hlen]
                · cases mcv <;> simp at hamc
              · exact ih4 q cb ha2

/-- Fuel-indexed variant of `dispatchLoop`, structurally recursive so that it
evaluates on concrete inputs; `dispatchLoop_eq_fuel` proves it agrees with
`dispatchLoop` whenever the fuel is at least the status word. -/
def dispatchLoopFuel {γ δ : Type} : Nat → Nat → Nat → BankState γ δ →
    Option (BankState γ δ × List (Action γ δ))
  | _, 0, _, st => some (st, [])
  | 0, _ + 1, _, _ => none
  | fuel + 1, gpios + 1, pin, st =>
    if st.guard then dispatchLoopFuel fuel ((gpios + 1) >>> 1) (pin + 1) st
    else
      match st.scSlots[pin]?, st.mcSlots[pin]? with
      | some scv, some mcv =>
        (dispatchLoopFuel fuel ((gpios + 1) >>> 1) (pin + 1)
          ⟨!(scv.isSome || mcv.isSome),
           st.mcSlots,
           if scv.isSome then st.scSlots.set pin none else st.scSlots⟩).map
          (fun r => (r.1,
            ((scv.map (Action.invokeSC pin)).toList ++
              (mcv.map (Action.invokeMC pin)).toList) ++ r.2))
      | _, _ => none

/-- With enough fuel, the fuel-indexed loop is the dispatch loop. -/
theorem dispatchLoop_eq_fuel {γ δ : Type} :
    ∀ (fuel gpios pin : Nat) (st : BankState γ δ), gpios ≤ fuel →
      dispatchLoopFuel fuel gpios pin st = dispatchLoop gpios pin st := by
  intro fuel
  induction fuel with
  | zero =>
    intro gpios pin st hle
    have h0 : gpios = 0 := Nat.le_zero.mp hle
    subst h0
    rw [dispatchLoop_zero]
    rfl
  | succ f ih =>
    intro gpios pin st hle
    match gpios with
    | 0 =>
      rw [dispatchLoop_zero]
      rfl
    | g + 1 =>
      have hne : g + 1 ≠ 0 := Nat.succ_ne_zero g
      have hrec : (g + 1) >>> 1 ≤ f := by
        have := shiftRight_one_lt hne
        omega
      cases hg : st.guard with
      | true =>
        rw [dispatchLoop_skip _ _ _ hne hg]
        show (if st.guard then _ else _) = _
        rw [hg, if_pos rfl]
        exact ih _ _ _ hrec
      | false =>
        show (if st.guard then _ else _) = _
        rw [hg]
        simp only [Bool.false_eq_true, if_false]
        cases hsc : st.scSlots[pin]? with
        | none =>
          rw [dispatchLoop_panic _ _ _ hne hg (Or.inl hsc)]
        | some scv =>
          cases hmc : st.mcSlots[pin]? with
          | none =>
            rw [dispatchLoop_panic _ _ _ hne hg (Or.inr hmc)]
          | some mcv =>
            rw [dispatchLoop_acquired _ _ _ hne hg scv mcv hsc hmc]
            show Option.map _ (dispatchLoopFuel f ((g + 1) >>> 1) (pin + 1) _) = _
            rw [ih _ _ _ hrec]

/-- Evaluation form of `handle_gpio_bank0`. -/
theorem handle_gpio_bank0_eval {γ δ : Type} (w : Nat) (st : BankState γ δ) :
    handle_gpio_bank0 w st =
      (dispatchLoopFuel w w 0 st).map (fun r => (r.1, Action.ack w :: r.2)) := by
  rw [handle_gpio_bank0, dispatchLoop_eq_fuel w w 0 st (Nat.le_refl w)]

/-- Evaluation form of `handle_gpio_bank1`. -/
theorem handle_gpio_bank1_eval {γ δ : Type} (w : Nat) (st : BankState γ δ) :
    handle_gpio_bank1 w st =
      (dispatchLoopFuel w w 0 st).map (fun r => (r.1, Action.ack w :: r.2)) := by
  rw [handle_gpio_bank1, dispatchLoop_eq_fuel w w 0 st (Nat.le_refl w)]

/-! ## Helper lemmas about registration and the detect-enable registers -/

/-- The pin-within-bank slot index is the low five bits. -/
theorem land31_eq_mod (p : Nat) : p &&& 31 = p % 32 := by
  have h := Nat.and_pow_two_sub_one_eq_mod p 5
  simpa using h

/-- The slot index is always below 32. -/
theorem land31_lt (p : Nat) : p &&& 31 < 32 := by
  rw [land31_eq_mod]
  exact Nat.mod_lt p (by decide)

/-- For a bank 0 pin the slot index is the pin itself. -/
theorem land31_eq_self (p : Nat) (hp : p < 32) : p &&& 31 = p := by
  rw [land31_eq_mod]
  exact Nat.mod_eq_of_lt hp

/-- Bit `i` of the 32-bit all-ones mask is set exactly below bit 32. -/
theorem mask32_testBit (i : Nat) : mask32.testBit i = decide (i < 32) := by
  rw [mask32]
  exact Nat.testBit_two_pow_sub_one 32 i

/-- Writing 1 into a one-bit field sets that bit. -/
theorem modifyField_set_testBit (r i : Nat) (hi : i < 32) :
    (modifyField r 1 i 1).testBit i = true := by
  simp [modifyField, Nat.testBit_lor, Nat.testBit_land, Nat.testBit_xor,
    Nat.one_shiftLeft, Nat.testBit_two_pow, mask32_testBit, hi]

/-- Writing 0 into a one-bit field clears that bit. -/
theorem modifyField_clear_testBit (r i : Nat) (hi : i < 32) :
    (modifyField r 1 i 0).testBit i = false := by
  simp [modifyField, Nat.testBit_lor, Nat.testBit_land, Nat.testBit_xor,
    Nat.one_shiftLeft, Nat.testBit_two_pow, mask32_testBit, hi]

/-- When the bank guard is already held, `register_event_handler_always`
leaves everything except the registers untouched but still arms the event. -/
theorem register_always_guard_held {γ δ : Type} (pin : Nat) (event : GpioEvent)
    (handler : γ) (s : GpioState γ δ) (hpin : pin ≤ 53)
    (hg : (if pin < 32 then s.bank0 else s.bank1).guard = true) :
    register_event_handler_always pin event handler s =
      some { s with regs := activate_detect_event pin event s.regs } := by
  by_cases hb : pin < 32
  · have hdiv : pin / 32 = 0 := by omega
    rw [if_pos hb] at hg
    simp [register_event_handler_always, hdiv, hg]
  · have hdiv : pin / 32 = 1 := by omega
    rw [if_neg hb] at hg
    simp [register_event_handler_always, hdiv, hg]

/-- When the bank guard is already held, `register_event_handler_onetime`
leaves everything except the registers untouched but still arms the event. -/
theorem register_onetime_guard_held {γ δ : Type} (pin : Nat) (event : GpioEvent)
    (handler : δ) (s : GpioState γ δ) (hpin : pin ≤ 53)
    (hg : (if pin < 32 then s.bank0 else s.bank1).guard = true) :
    register_event_handler_onetime pin event handler s =
      some { s with regs := activate_detect_event pin event s.regs } := by
  by_cases hb : pin < 32
  · have hdiv : pin / 32 = 0 := by omega
    rw [if_pos hb] at hg
    simp [register_event_handler_onetime, hdiv, hg]
  · have hdiv : pin / 32 = 1 := by omega
    rw [if_neg hb] at hg
    simp [register_event_handler_onetime, hdiv, hg]

/-- When the bank guard is already held, `unregister_event_handler` leaves
everything except the registers untouched but still disarms the event. -/
theorem unregister_guard_held {γ δ : Type} (pin : Nat) (event : GpioEvent)
    (s : GpioState γ δ) (hpin : pin ≤ 53)
    (hg : (if pin < 32 then s.bank0 else s.bank1).guard = true) :
    unregister_event_handler pin event s =
      some { s with regs := deactivate_detect_event pin event s.regs } := by
  by_cases hb : pin < 32
  · have hdiv : pin / 32 = 0 := by omega
    rw [if_pos hb] at hg
    simp [unregister_event_handler, hdiv, hg]
  · have hdiv : pin / 32 = 1 := by omega
    rw [if_neg hb] at hg
    simp [unregister_event_handler, hdiv, hg]

/-- Bank 0 registration with a free guard: the recurring slot is stored, the
one-shot slot cleared, the guard released and the event armed. -/
theorem register_always_bank0_free {γ δ : Type} (pin : Nat) (event : GpioEvent)
    (handler : γ) (s : GpioState γ δ) (hb : pin < 32)
    (hg : s.bank0.guard = false)
    (hmc : (s.bank0.mcSlots[pin]?).isSome = true)
    (hsc : (s.bank0.scSlots[pin]?).isSome = true) :
    register_event_handler_always pin event handler s =
      some { s with
        bank0 := ⟨false, s.bank0.mcSlots.set pin (some handler),
                  s.bank0.scSlots.set pin none⟩,
        regs := activate_detect_event pin event s.regs } := by
  have hdiv : pin / 32 = 0 := by omega
  have hslot : pin &&& 31 = pin := land31_eq_self pin hb
  obtain ⟨mcv, hmcv⟩ := Option.isSome_iff_exists.mp hmc
  obtain ⟨scv, hscv⟩ := Option.isSome_iff_exists.mp hsc
  simp [register_event_handler_always, hdiv, hslot, hg, hmcv, hscv]

/-- Bank 0 one-shot registration with a free guard: the one-shot slot is
stored, the recurring slot cleared, the guard released and the event armed. -/
theorem register_onetime_bank0_free {γ δ : Type} (pin : Nat) (event : GpioEvent)
    (handler : δ) (s : GpioState γ δ) (hb : pin < 32)
    (hg : s.bank0.guard = false)
    (hmc : (s.bank0.mcSlots[pin]?).isSome = true)
    (hsc : (s.bank0.scSlots[pin]?).isSome = true) :
    register_event_handler_onetime pin event handler s =
      some { s with
        bank0 := ⟨false, s.bank0.mcSlots.set pin none,
                  s.bank0.scSlots.set pin (some handler)⟩,
        regs := activate_detect_event pin event s.regs } := by
  have hdiv : pin / 32 = 0 := by omega
  have hslot : pin &&& 31 = pin := land31_eq_self pin hb
  obtain ⟨mcv, hmcv⟩ := Option.isSome_iff_exists.mp hmc
  obtain ⟨scv, hscv⟩ := Option.isSome_iff_exists.mp hsc
  simp [register_event_handler_onetime, hdiv, hslot, hg, hmcv, hscv]

/-- Bank 0 unregistration with a free guard: both slots are cleared, the guard
released and the event disarmed. -/
theorem unregister_bank0_free {γ δ : Type} (pin : Nat) (event : GpioEvent)
    (s : GpioState γ δ) (hb : pin < 32)
    (hg : s.bank0.guard = false)
    (hmc : (s.bank0.mcSlots[pin]?).isSome = true)
    (hsc : (s.bank0.scSlots[pin]?).isSome = true) :
    unregister_event_handler pin event s =
      some { s with
        bank0 := ⟨false, s.bank0.mcSlots.set pin none,
                  s.bank0.scSlots.set pin none⟩,
        regs := deactivate_detect_event pin event s.regs } := by
  have hdiv : pin / 32 = 0 := by omega
  have hslot : pin &&& 31 = pin := land31_eq_self pin hb
  obtain ⟨mcv, hmcv⟩ := Option.isSome_iff_exists.mp hmc
  obtain ⟨scv, hscv⟩ := Option.isSome_iff_exists.mp hsc
  simp [unregister_event_handler, hdiv, hslot, hg, hmcv, hscv]

/-- Bank 1 unregistration with a free guard: both slots are cleared at index
`pin & 31`, the guard released and the event disarmed. -/
theorem unregister_bank1_free {γ δ : Type} (pin : Nat) (event : GpioEvent)
    (s : GpioState γ δ) (hb1 : 32 ≤ pin) (hb2 : pin ≤ 63)
    (hg : s.bank1.guard = false)
    (hmc : (s.bank1.mcSlots[pin &&& 31]?).isSome = true)
    (hsc : (s.bank1.scSlots[pin &&& 31]?).isSome = true) :
    unregister_event_handler pin event s =
      some { s with
        bank1 := ⟨false, s.bank1.mcSlots.set (pin &&& 31) none,
                  s.bank1.scSlots.set (pin &&& 31) none⟩,
        regs := deactivate_detect_event pin event s.regs } := by
  have hdiv : pin / 32 = 1 := by omega
  obtain ⟨mcv, hmcv⟩ := Option.isSome_iff_exists.mp hmc
  obtain ⟨scv, hscv⟩ := Option.isSome_iff_exists.mp hsc
  simp [unregister_event_handler, hdiv, hg, hmcv, hscv]

/-- Arming an event sets the slot bit in each enable register the event maps
to. -/
theorem activate_sets_bits (pin : Nat) (event : GpioEvent) (r : Regs)
    (hpin : pin ≤ 53) :
    ∀ e ∈ eventEnableRegs (pin / 32) event,
      ((activate_detect_event pin event r).read e).testBit (pin &&& 31) =
        true := by
  have hlt := land31_lt pin
  by_cases hb : pin < 32
  · have hdiv : pin / 32 = 0 := by omega
    cases event <;>
      simp [eventEnableRegs, activate_detect_event, Regs.read, hdiv,
        modifyField_set_testBit _ _ hlt]
  · have hdiv : pin / 32 = 1 := by omega
    cases event <;>
      simp [eventEnableRegs, activate_detect_event, Regs.read, hdiv,
        modifyField_set_testBit _ _ hlt]

/-- Disarming an event clears the slot bit in each enable register the event
maps to. -/
theorem deactivate_clears_bits (pin : Nat) (event : GpioEvent) (r : Regs)
    (hpin : pin ≤ 53) :
    ∀ e ∈ eventEnableRegs (pin / 32) event,
      ((deactivate_detect_event pin event r).read e).testBit (pin &&& 31) =
        false := by
  have hlt := land31_lt pin
  by_cases hb : pin < 32
  · have hdiv : pin / 32 = 0 := by omega
    cases event <;>
      simp [eventEnableRegs, deactivate_detect_event, Regs.read, hdiv,
        modifyField_clear_testBit _ _ hlt]
  · have hdiv : pin / 32 = 1 := by omega
    cases event <;>
      simp [eventEnableRegs, deactivate_detect_event, Regs.read, hdiv,
        modifyField_clear_testBit _ _ hlt]

/-- Disarming an event leaves every enable register the event does not map to
unchanged. -/
theorem deactivate_other_regs (pin : Nat) (event : GpioEvent) (r : Regs) :
    ∀ e : EnableReg, e ∉ eventEnableRegs (pin / 32) event →
      (deactivate_detect_event pin event r).read e = r.read e := by
  intro e he
  rcases hdiv : pin / 32 with _ | n
  · cases event <;> cases e <;>
      simp_all [eventEnableRegs, deactivate_detect_event, Regs.read]
  · rcases n with _ | m
    · cases event <;> cases e <;>
        simp_all [eventEnableRegs, deactivate_detect_event, Regs.read]
    · cases event <;> cases e <;>
        simp [deactivate_detect_event, hdiv, Regs.read]

/-- Bank 1 recurring registration with a free guard: the recurring slot is
stored at index `pin & 31`, the one-shot slot cleared, the guard released and
the event armed. -/
theorem register_always_bank1_free {γ δ : Type} (pin : Nat) (event : GpioEvent)
    (handler : γ) (s : GpioState γ δ) (hb1 : 32 ≤ pin) (hb2 : pin ≤ 63)
    (hg : s.bank1.guard = false)
    (hmc : (s.bank1.mcSlots[pin &&& 31]?).isSome = true)
    (hsc : (s.bank1.scSlots[pin &&& 31]?).isSome = true) :
    register_event_handler_always pin event handler s =
      some { s with
        bank1 := ⟨false, s.bank1.mcSlots.set (pin &&& 31) (some handler),
                  s.bank1.scSlots.set (pin &&& 31) none⟩,
        regs := activate_detect_event pin event s.regs } := by
  have hdiv : pin / 32 = 1 := by omega
  obtain ⟨mcv, hmcv⟩ := Option.isSome_iff_exists.mp hmc
  obtain ⟨scv, hscv⟩ := Option.isSome_iff_exists.mp hsc
  simp [register_event_handler_always, hdiv, hg, hmcv, hscv]

/-- Bank 1 one-shot registration with a free guard: the one-shot slot is
stored at index `pin & 31`, the recurring slot cleared, the guard released and
the event armed. -/
theorem register_onetime_bank1_free {γ δ : Type} (pin : Nat) (event : GpioEvent)
    (handler : δ) (s : GpioState γ δ) (hb1 : 32 ≤ pin) (hb2 : pin ≤ 63)
    (hg : s.bank1.guard = false)
    (hmc : (s.bank1.mcSlots[pin &&& 31]?).isSome = true)
    (hsc : (s.bank1.scSlots[pin &&& 31]?).isSome = true) :
    register_event_handler_onetime pin event handler s =
      some { s with
        bank1 := ⟨false, s.bank1.mcSlots.set (pin &&& 31) none,
                  s.bank1.scSlots.set (pin &&& 31) (some handler)⟩,
        regs := activate_detect_event pin event s.regs } := by
  have hdiv : pin / 32 = 1 := by omega
  obtain ⟨mcv, hmcv⟩ := Option.isSome_iff_exists.mp hmc
  obtain ⟨scv, hscv⟩ := Option.isSome_iff_exists.mp hsc
  simp [register_event_handler_onetime, hdiv, hg, hmcv, hscv]

/-! ## Claim C1: registration when the guard CAS fails -/

/-- A state with both bank guards held and all enable registers zero. -/
def c1GuardHeldState : GpioState Nat Nat :=
  ⟨⟨true, List.replicate 32 none, List.replicate 32 none⟩,
   ⟨true, List.replicate 22 none, List.replicate 22 none⟩,
   Regs.zero⟩

/-- C1 counterexample: with the bank 0 guard held (the CAS fails), registering
a recurring handler for pin 0 / RisingEdge nevertheless sets the rising-edge
detect-enable bit 0 — the call is not free of effects on the bank's detect
registers. -/
theorem c1_counterexample :
    c1GuardHeldState.bank0.guard = true ∧
    c1GuardHeldState.regs.gpren0.testBit 0 = false ∧
    (register_event_handler_always 0 .risingEdge 7 c1GuardHeldState).map
      (fun s' => s'.regs.gpren0.testBit 0) = some true :=
  ⟨rfl, rfl, rfl⟩

/-- C1 (amended): when the bank guard CAS fails, the callback slot arrays and
the guard are untouched — but the call is not a complete no-op:
`activate_detect_event` still runs unconditionally, setting the detect-enable
bit(s) of the event for that pin; this holds for both
`register_event_handler_always` and `register_event_handler_onetime`. -/
theorem c1_amended {γ δ : Type} (pin : Nat) (event : GpioEvent) (cbA : γ)
    (cbO : δ) (s : GpioState γ δ) (hpin : pin ≤ 53)
    (hg : (if pin < 32 then s.bank0 else s.bank1).guard = true) :
    register_event_handler_always pin event cbA s =
      some { s with regs := activate_detect_event pin event s.regs } ∧
    register_event_handler_onetime pin event cbO s =
      some { s with regs := activate_detect_event pin event s.regs } ∧
    ∀ e ∈ eventEnableRegs (pin / 32) event,
      ((activate_detect_event pin event s.regs).read e).testBit (pin &&& 31) =
        true :=
  ⟨register_always_guard_held pin event cbA s hpin hg,
   register_onetime_guard_held pin event cbO s hpin hg,
   activate_sets_bits pin event s.regs hpin⟩

/-- Witness for `c1_amended` at pin 0 / RisingEdge with the guard held. -/
theorem c1_amended_witness :
    (0 : Nat) ≤ 53 ∧
    (if (0 : Nat) < 32 then c1GuardHeldState.bank0
      else c1GuardHeldState.bank1).guard = true ∧
    (register_event_handler_always 0 GpioEvent.risingEdge (7 : Nat)
        c1GuardHeldState =
      some { c1GuardHeldState with
        regs := activate_detect_event 0 .risingEdge c1GuardHeldState.regs } ∧
    register_event_handler_onetime 0 GpioEvent.risingEdge (8 : Nat)
        c1GuardHeldState =
      some { c1GuardHeldState with
        regs := activate_detect_event 0 .risingEdge c1GuardHeldState.regs } ∧
    ∀ e ∈ eventEnableRegs (0 / 32) GpioEvent.risingEdge,
      ((activate_detect_event 0 .risingEdge
          c1GuardHeldState.regs).read e).testBit (0 &&& 31) = true) :=
  ⟨by decide, rfl,
   c1_amended 0 .risingEdge 7 8 c1GuardHeldState (by decide) rfl⟩

/-! ## Claim C3: unregistration clears only the given event -/

/-- State for the C3 counterexample: pin 40 (bank 1, slot 8) has both handler
slots occupied, and bit 8 (value 256) is set in all six bank 1 enable
registers. -/
def c3UnregState : GpioState Nat Nat :=
  ⟨⟨false, List.replicate 32 none, List.replicate 32 none⟩,
   ⟨false, (List.replicate 22 none).set 8 (some 3),
    (List.replicate 22 none).set 8 (some 4)⟩,
   ⟨0, 0, 0, 0, 0, 0, 256, 256, 256, 256, 256, 256⟩⟩

/-- C3 counterexample: unregistering pin 40 with event RisingEdge clears only
the rising-edge enable bit; the falling-edge enable register still has bit 8
set afterwards, contradicting "clears that pin's bit in all six detect-enable
registers". -/
theorem c3_counterexample :
    (unregister_event_handler 40 .risingEdge c3UnregState).map
      (fun s' => (s'.regs.gpren1.testBit 8, s'.regs.gpfen1.testBit 8)) =
      some (false, true) :=
  rfl

/-- C3 (amended): `unregister_event_handler(pin, event)` clears both handler
slots of the pin when the guard is acquired, but disarms only the
detect-enable bit(s) of the `event` argument: the event's register(s) get the
pin's bit cleared while every other detect-enable register — of either bank —
is left unchanged. -/
theorem c3_amended {γ δ : Type} (pin : Nat) (event : GpioEvent)
    (s : GpioState γ δ) (hpin : pin ≤ 53)
    (hg : (if pin < 32 then s.bank0 else s.bank1).guard = false)
    (hmc : ((if pin < 32 then s.bank0
      else s.bank1).mcSlots[pin &&& 31]?).isSome = true)
    (hsc : ((if pin < 32 then s.bank0
      else s.bank1).scSlots[pin &&& 31]?).isSome = true) :
    ∃ s', unregister_event_handler pin event s = some s' ∧
      (if pin < 32 then s'.bank0 else s'.bank1).scSlots[pin &&& 31]? =
        some none ∧
      (if pin < 32 then s'.bank0 else s'.bank1).mcSlots[pin &&& 31]? =
        some none ∧
      s'.regs = deactivate_detect_event pin event s.regs ∧
      (∀ e ∈ eventEnableRegs (pin / 32) event,
        (s'.regs.read e).testBit (pin &&& 31) = false) ∧
      (∀ e : EnableReg, e ∉ eventEnableRegs (pin / 32) event →
        s'.regs.read e = s.regs.read e) := by
  by_cases hb : pin < 32
  · rw [if_pos hb] at hg hmc hsc
    have hslot : pin &&& 31 = pin := land31_eq_self pin hb
    rw [hslot] at hmc hsc
    obtain ⟨mcv, hmcv⟩ := Option.isSome_iff_exists.mp hmc
    obtain ⟨scv, hscv⟩ := Option.isSome_iff_exists.mp hsc
    have hmlen : pin < s.bank0.mcSlots.length := (List.getElem?_eq_some.mp hmcv).1
    have hslen : pin < s.bank0.scSlots.length := (List.getElem?_eq_some.mp hscv).1
    refine ⟨_, unregister_bank0_free pin event s hb hg hmc hsc, ?_, ?_, rfl,
      deactivate_clears_bits pin event s.regs hpin,
      deactivate_other_regs pin event s.regs⟩
    · rw [if_pos hb, hslot]
      exact List.getElem?_set_eq_of_lt none hslen
    · rw [if_pos hb, hslot]
      exact List.getElem?_set_eq_of_lt none hmlen
  · rw [if_neg hb] at hg hmc hsc
    obtain ⟨mcv, hmcv⟩ := Option.isSome_iff_exists.mp hmc
    obtain ⟨scv, hscv⟩ := Option.isSome_iff_exists.mp hsc
    have hmlen : pin &&& 31 < s.bank1.mcSlots.length :=
      (List.getElem?_eq_some.mp hmcv).1
    have hslen : pin &&& 31 < s.bank1.scSlots.length :=
      (List.getElem?_eq_some.mp hscv).1
    refine ⟨_,
      unregister_bank1_free pin event s (by omega) (by omega) hg hmc hsc,
      ?_, ?_, rfl,
      deactivate_clears_bits pin event s.regs hpin,
      deactivate_other_regs pin event s.regs⟩
    · rw [if_neg hb]
      exact List.getElem?_set_eq_of_lt none hslen
    · rw [if_neg hb]
      exact List.getElem?_set_eq_of_lt none hmlen

/-- Witness for `c3_amended` at pin 40 / RisingEdge. -/
theorem c3_amended_witness :
    (40 : Nat) ≤ 53 ∧
    (if (40 : Nat) < 32 then c3UnregState.bank0
      else c3UnregState.bank1).guard = false ∧
    ((if (40 : Nat) < 32 then c3UnregState.bank0
      else c3UnregState.bank1).mcSlots[40 &&& 31]?).isSome = true ∧
    ((if (40 : Nat) < 32 then c3UnregState.bank0
      else c3UnregState.bank1).scSlots[40 &&& 31]?).isSome = true ∧
    (∃ s', unregister_event_handler 40 GpioEvent.risingEdge c3UnregState =
        some s' ∧
      (if (40 : Nat) < 32 then s'.bank0 else s'.bank1).scSlots[40 &&& 31]? =
        some none ∧
      (if (40 : Nat) < 32 then s'.bank0 else s'.bank1).mcSlots[40 &&& 31]? =
        some none ∧
      s'.regs = deactivate_detect_event 40 .risingEdge c3UnregState.regs ∧
      (∀ e ∈ eventEnableRegs (40 / 32) GpioEvent.risingEdge,
        (s'.regs.read e).testBit (40 &&& 31) = false) ∧
      (∀ e : EnableReg, e ∉ eventEnableRegs (40 / 32) GpioEvent.risingEdge →
        s'.regs.read e = c3UnregState.regs.read e)) :=
  ⟨by decide, rfl, rfl, rfl,
   c3_amended 40 .risingEdge c3UnregState (by decide) rfl rfl rfl⟩

/-! ## Claim C10: the pull-up/down handshake -/

/-- The six-step pull handshake exactly as the spec states it (section 4.3,
steps 1–6), for comparison with the trace of `configure_pud`: write the pull
code into the shared control register, settle, write the pin's mask into the
bank-appropriate pull-clock register, settle again, write zero to the control
register, write the mask into the pull-clock register again. -/
def pudHandshakeSpec (id code : Nat) : List PudAction :=
  [ PudAction.pudModify code,
    PudAction.wait 150,
    PudAction.pudclkSet (if id < 32 then 0 else 1) (1 <<< (id % 32)),
    PudAction.wait 150,
    PudAction.pudSet 0,
    PudAction.pudclkSet (if id < 32 then 0 else 1) (1 <<< (id % 32)) ]

/-- C10: every pull-state transition (`disable_pud`, `enable_pud_up`,
`enable_pud_down`) performs exactly the six-step handshake in order — desired
pull code write (0b00 / 0b10 / 0b01), settle delay, the pin's bit mask into
the bank-appropriate pull-clock register, the same delay, zero into the pull
control register, and the mask into the pull-clock register again — and
nothing else. -/
theorem c10_pud_sequence (id : Nat) (hid : id ≤ 53) (p : GpioPin)
    (hp : GpioPin.new id = some p) :
    disable_pud p = pudHandshakeSpec id 0 ∧
    enable_pud_up p = pudHandshakeSpec id 2 ∧
    enable_pud_down p = pudHandshakeSpec id 1 := by
  have h5 : id / 10 ≤ 5 := by omega
  simp only [GpioPin.new, if_pos h5, Option.some.injEq] at hp
  subst hp
  exact ⟨rfl, rfl, rfl⟩

/-- Witness for `c10_pud_sequence` at pin 40 (bank 1). -/
theorem c10_pud_sequence_witness :
    (40 : Nat) ≤ 53 ∧
    ∃ p, GpioPin.new 40 = some p ∧
      (disable_pud p = pudHandshakeSpec 40 0 ∧
       enable_pud_up p = pudHandshakeSpec 40 2 ∧
       enable_pud_down p = pudHandshakeSpec 40 1) :=
  ⟨by decide, _, rfl, c10_pud_sequence 40 (by decide) _ rfl⟩

/-! ## Claim C9: the peripheral ownership gate -/

/-- C9: construction of the peripheral handle succeeds exactly when the
`GPIO_ONCE` flag transitions clear to set in the CAS (and the flag is set
afterwards); a second construction while the first handle is live fails;
destruction clears the flag unconditionally; and after destruction exactly one
subsequent construction succeeds. -/
theorem c9_ownership_gate :
    (∀ once : Bool, ((gpioNew once).2.isSome = !once) ∧ (gpioNew once).1 = true) ∧
    (gpioNew (gpioNew false).1).2 = none ∧
    (∀ once : Bool, gpioDrop once = false) ∧
    (gpioNew (gpioDrop true)).2 = some Gpio.fresh ∧
    (gpioNew (gpioNew (gpioDrop true)).1).2 = none := by
  decide

/-! ## Claim C7: the pin acquisition registry never marks pins -/

/-- C7: `use_pin` hands out pin 0 of a fresh peripheral but returns the
registry state unchanged — the pin is never marked used — so the very same
acquire succeeds a second time instead of failing `PinInUse`, and
`release_pin` of the just-acquired pin reports `PinNotInUse`. -/
theorem c7_use_pin_never_marks :
    (∃ p, use_pin Gpio.fresh 0 = some (Gpio.fresh, Except.ok p)) ∧
    Gpio.fresh.used_pins[0]? = some false ∧
    release_pin Gpio.fresh 0 =
      some (Gpio.fresh, Except.error PinError.pinNotInUse) :=
  ⟨⟨_, rfl⟩, rfl, rfl⟩

/-! ## Claim C2: the dispatch loop ignores the status bits -/

/-- Dispatch state for the C2 check: bank 0 with a recurring handler stored
for pin 0 only and a free guard. -/
def c2DispatchState : BankState Nat Nat :=
  ⟨false, (List.replicate 32 none).set 0 (some 5), List.replicate 32 none⟩

/-- C2: with event status `0b10` — bit 0 clear — the pass still attempts the
guard acquire for pin 0 and invokes the recurring callback stored there,
because the loop never tests the current status bit; a pin whose status bit is
clear is processed whenever any higher bit is set. -/
theorem c2_untriggered_pin_invoked :
    (2 : Nat).testBit 0 = false ∧
    handle_gpio_bank0 2 c2DispatchState =
      some ({ c2DispatchState with guard := true },
        [Action.ack 2, Action.invokeMC 0 5]) := by
  refine ⟨rfl, ?_⟩
  rw [handle_gpio_bank0_eval]
  rfl

/-! ## Claim C8: the bank 1 dispatch loop can index out of bounds -/

/-- Bank 1 state for the C8 check: all 22 one-shot slots filled and a free
guard. -/
def c8Bank1State : BankState Nat Nat :=
  ⟨false, List.replicate 22 none, List.replicate 22 (some 1)⟩

/-- C8: a bank 1 dispatch pass with every bit of the 32-bit status register
set panics: after visiting the 22 existing slots the loop indexes slot 22 of
the 22-entry handler arrays, a Rust index-out-of-bounds panic. -/
theorem c8_bank1_oob_panic :
    (4294967295 : Nat) < 2 ^ 32 ∧
    handle_gpio_bank1 4294967295 c8Bank1State = none := by
  refine ⟨by decide, ?_⟩
  rw [handle_gpio_bank1_eval]
  rfl

/-! ## Claim C4: acknowledgment precedes every callback -/

/-- C4: a completed dispatch pass of either bank produces a trace that starts
with the acknowledgment write of the status pattern that was read, and no
other acknowledge action occurs: every callback invocation comes strictly
after the acknowledgment. -/
theorem c4_ack_before_callbacks {γ δ : Type} (w0 w1 : Nat)
    (st0 st1 : BankState γ δ)
    (r0 r1 : BankState γ δ × List (Action γ δ))
    (h0 : handle_gpio_bank0 w0 st0 = some r0)
    (h1 : handle_gpio_bank1 w1 st1 = some r1) :
    (∃ body, r0.2 = Action.ack w0 :: body ∧
      ∀ a ∈ body, ∀ u, a ≠ Action.ack u) ∧
    (∃ body, r1.2 = Action.ack w1 :: body ∧
      ∀ a ∈ body, ∀ u, a ≠ Action.ack u) := by
  constructor
  · rw [handle_gpio_bank0] at h0
    obtain ⟨⟨stl, trl⟩, hrec, hmap⟩ := Option.map_eq_some'.mp h0
    obtain ⟨-, hnoack, -, -⟩ := dispatchLoop_props w0 0 st0 stl trl hrec
    exact ⟨trl, by rw [← hmap], hnoack⟩
  · rw [handle_gpio_bank1] at h1
    obtain ⟨⟨stl, trl⟩, hrec, hmap⟩ := Option.map_eq_some'.mp h1
    obtain ⟨-, hnoack, -, -⟩ := dispatchLoop_props w1 0 st1 stl trl hrec
    exact ⟨trl, by rw [← hmap], hnoack⟩

/-- Witness for `c4_ack_before_callbacks`: both banks dispatched with status 1
on a one-slot empty bank state. -/
theorem c4_ack_before_callbacks_witness :
    (∃ body, ([Action.ack 1] : List (Action Nat Nat)) = Action.ack 1 :: body ∧
      ∀ a ∈ body, ∀ u, a ≠ Action.ack u) ∧
    (∃ body, ([Action.ack 1] : List (Action Nat Nat)) = Action.ack 1 :: body ∧
      ∀ a ∈ body, ∀ u, a ≠ Action.ack u) :=
  c4_ack_before_callbacks 1 1 ⟨false, [none], [none]⟩ ⟨false, [none], [none]⟩
    (⟨true, [none], [none]⟩, [Action.ack 1])
    (⟨true, [none], [none]⟩, [Action.ack 1])
    (by rw [handle_gpio_bank0_eval]; rfl)
    (by rw [handle_gpio_bank1_eval]; rfl)

/-! ## Claim C5: the guard leaks on an empty visited pin -/

/-- C5: if the guard CAS succeeds for a visited pin whose one-shot and
recurring slots are both empty, the guard is never stored back: the pass
completes with the guard still set and with no further effect, and afterwards
every guard acquisition attempt fails — a later dispatch pass of that bank
changes nothing and invokes nothing, and registrations and unregistrations
targeting that bank leave its slot arrays and guard untouched (only the
detect-enable registers are still written). -/
theorem c5_guard_leak {γ δ : Type} (w pin : Nat) (st : BankState γ δ)
    (hw : w ≠ 0) (hg : st.guard = false)
    (hsc : st.scSlots[pin]? = some none) (hmc : st.mcSlots[pin]? = some none) :
    dispatchLoop w pin st = some ({ st with guard := true }, []) ∧
    (∀ w2 p2, dispatchLoop w2 p2 { st with guard := true } =
      some ({ st with guard := true }, [])) ∧
    (∀ (s : GpioState γ δ) (p2 : Nat) (ev : GpioEvent) (cbA : γ) (cbO : δ),
      p2 ≤ 53 →
      (if p2 < 32 then s.bank0 else s.bank1) = { st with guard := true } →
      register_event_handler_always p2 ev cbA s =
        some { s with regs := activate_detect_event p2 ev s.regs } ∧
      register_event_handler_onetime p2 ev cbO s =
        some { s with regs := activate_detect_event p2 ev s.regs } ∧
      unregister_event_handler p2 ev s =
        some { s with regs := deactivate_detect_event p2 ev s.regs }) := by
  have hstep := dispatchLoop_acquired w pin st hw hg none none hsc hmc
  have hstuck := dispatchLoop_guard_stuck (w >>> 1) (pin + 1)
    (⟨true, st.mcSlots, st.scSlots⟩ : BankState γ δ) rfl
  refine ⟨?_, ?_, ?_⟩
  · rw [hstep]
    show (dispatchLoop (w >>> 1) (pin + 1)
      (⟨true, st.mcSlots, st.scSlots⟩ : BankState γ δ)).map _ = _
    rw [hstuck]
    rfl
  · intro w2 p2
    exact dispatchLoop_guard_stuck w2 p2 _ rfl
  · intro s p2 ev cbA cbO hp2 hbank
    have hgq : (if p2 < 32 then s.bank0 else s.bank1).guard = true := by
      rw [hbank]
    exact ⟨register_always_guard_held p2 ev cbA s hp2 hgq,
      register_onetime_guard_held p2 ev cbO s hp2 hgq,
      unregister_guard_held p2 ev s hp2 hgq⟩

/-- Witness for `c5_guard_leak`: a single-slot bank state with both slots
empty, dispatched with status 1. -/
theorem c5_guard_leak_witness :
    dispatchLoop 1 0 (⟨false, [none], [none]⟩ : BankState Nat Nat) =
      some (⟨true, [none], [none]⟩, []) ∧
    (∀ w2 p2, dispatchLoop w2 p2
        (⟨true, [none], [none]⟩ : BankState Nat Nat) =
      some (⟨true, [none], [none]⟩, [])) ∧
    (∀ (s : GpioState Nat Nat) (p2 : Nat) (ev : GpioEvent) (cbA cbO : Nat),
      p2 ≤ 53 →
      (if p2 < 32 then s.bank0 else s.bank1) = ⟨true, [none], [none]⟩ →
      register_event_handler_always p2 ev cbA s =
        some { s with regs := activate_detect_event p2 ev s.regs } ∧
      register_event_handler_onetime p2 ev cbO s =
        some { s with regs := activate_detect_event p2 ev s.regs } ∧
      unregister_event_handler p2 ev s =
        some { s with regs := deactivate_detect_event p2 ev s.regs }) :=
  c5_guard_leak 1 0 ⟨false, [none], [none]⟩ (by decide) rfl rfl rfl

/-! ## Claim C6: last registration wins and a fired one-shot empties the pin -/

/-- In any completed dispatch pass whose trace invokes the one-shot of a pin
whose recurring slot is empty, the pass ends with both slots of that pin
empty. -/
theorem dispatch_invokeSC_clears {γ δ : Type} (w q : Nat) (cb : δ)
    (st st' : BankState γ δ) (tr : List (Action γ δ))
    (h : (dispatchLoop w 0 st).map
      (fun r => (r.1, Action.ack w :: r.2)) = some (st', tr))
    (hmem : Action.invokeSC q cb ∈ tr) (hmcq : st.mcSlots[q]? = some none) :
    st'.scSlots[q]? = some none ∧ st'.mcSlots[q]? = some none := by
  obtain ⟨⟨stl, trl⟩, hrec, hmap⟩ := Option.map_eq_some'.mp h
  simp only [Prod.mk.injEq] at hmap
  obtain ⟨h1, h2⟩ := hmap
  subst h1
  subst h2
  obtain ⟨hmcun, -, -, hinv⟩ := dispatchLoop_props w 0 st stl trl hrec
  have hmem' : Action.invokeSC q cb ∈ trl := by
    rcases List.mem_cons.mp hmem with he | hm
    · exact Action.noConfusion he
    · exact hm
  refine ⟨hinv q cb hmem', ?_⟩
  rw [hmcun]
  exact hmcq

/-- C6: registering a recurring callback and then a one-shot on the same pin
leaves exactly one active callback — the one-shot, with the recurring slot
empty — and any completed dispatch pass of the owning bank that invokes that
one-shot ends with both slots of the pin empty. -/
theorem c6_last_registration_wins {γ δ : Type} (pin : Nat) (hpin : pin ≤ 53)
    (e1 e2 : GpioEvent) (cbA : γ) (cbO : δ) (s s1 s2 : GpioState γ δ)
    (hg : (if pin < 32 then s.bank0 else s.bank1).guard = false)
    (hmc : ((if pin < 32 then s.bank0
      else s.bank1).mcSlots[pin &&& 31]?).isSome = true)
    (hsc : ((if pin < 32 then s.bank0
      else s.bank1).scSlots[pin &&& 31]?).isSome = true)
    (h1 : register_event_handler_always pin e1 cbA s = some s1)
    (h2 : register_event_handler_onetime pin e2 cbO s1 = some s2) :
    (if pin < 32 then s2.bank0 else s2.bank1).scSlots[pin &&& 31]? =
      some (some cbO) ∧
    (if pin < 32 then s2.bank0 else s2.bank1).mcSlots[pin &&& 31]? =
      some none ∧
    (∀ (w : Nat) (st' : BankState γ δ) (tr : List (Action γ δ)),
      (if pin < 32 then handle_gpio_bank0 w s2.bank0 = some (st', tr)
        else handle_gpio_bank1 w s2.bank1 = some (st', tr)) →
      Action.invokeSC (pin &&& 31) cbO ∈ tr →
      st'.scSlots[pin &&& 31]? = some none ∧
      st'.mcSlots[pin &&& 31]? = some none) := by
  by_cases hb : pin < 32
  · rw [if_pos hb] at hg hmc hsc
    have hslot : pin &&& 31 = pin := land31_eq_self pin hb
    rw [hslot] at hmc hsc
    obtain ⟨mcv, hmcv⟩ := Option.isSome_iff_exists.mp hmc
    obtain ⟨scv, hscv⟩ := Option.isSome_iff_exists.mp hsc
    have hmlen : pin < s.bank0.mcSlots.length := (List.getElem?_eq_some.mp hmcv).1
    have hslen : pin < s.bank0.scSlots.length := (List.getElem?_eq_some.mp hscv).1
    rw [register_always_bank0_free pin e1 cbA s hb hg hmc hsc] at h1
    have h1' := Option.some.inj h1
    subst h1'
    have hmc1 : ((s.bank0.mcSlots.set pin (some cbA))[pin]?).isSome = true := by
      rw [List.getElem?_set_eq_of_lt _ (by simpa using hmlen)]
      rfl
    have hsc1 : ((s.bank0.scSlots.set pin none)[pin]?).isSome = true := by
      rw [List.getElem?_set_eq_of_lt _ (by simpa using hslen)]
      rfl
    rw [register_onetime_bank0_free pin e2 cbO _ hb rfl hmc1 hsc1] at h2
    have h2' := Option.some.inj h2
    subst h2'
    rw [if_pos hb, hslot]
    refine ⟨?_, ?_, ?_⟩
    · exact List.getElem?_set_eq_of_lt _ (by simpa using hslen)
    · exact List.getElem?_set_eq_of_lt _ (by simpa using hmlen)
    · intro w st' tr hdisp hmem
      rw [if_pos hb] at hdisp
      exact dispatch_invokeSC_clears w pin cbO _ st' tr hdisp hmem
        (List.getElem?_set_eq_of_lt _ (by simpa using hmlen))
  · rw [if_neg hb] at hg hmc hsc
    obtain ⟨mcv, hmcv⟩ := Option.isSome_iff_exists.mp hmc
    obtain ⟨scv, hscv⟩ := Option.isSome_iff_exists.mp hsc
    have hmlen : pin &&& 31 < s.bank1.mcSlots.length :=
      (List.getElem?_eq_some.mp hmcv).1
    have hslen : pin &&& 31 < s.bank1.scSlots.length :=
      (List.getElem?_eq_some.mp hscv).1
    rw [register_always_bank1_free pin e1 cbA s (by omega) (by omega) hg hmc hsc]
      at h1
    have h1' := Option.some.inj h1
    subst h1'
    have hmc1 : (((s.bank1.mcSlots.set (pin &&& 31)
        (some cbA))[pin &&& 31]?)).isSome = true := by
      rw [List.getElem?_set_eq_of_lt _ (by simpa using hmlen)]
      rfl
    have hsc1 : (((s.bank1.scSlots.set (pin &&& 31)
        none)[pin &&& 31]?)).isSome = true := by
      rw [List.getElem?_set_eq_of_lt _ (by simpa using hslen)]
      rfl
    rw [register_onetime_bank1_free pin e2 cbO _ (by omega) (by omega) rfl
      hmc1 hsc1] at h2
    have h2' := Option.some.inj h2
    subst h2'
    rw [if_neg hb]
    refine ⟨?_, ?_, ?_⟩
    · exact List.getElem?_set_eq_of_lt _ (by simpa using hslen)
    · exact List.getElem?_set_eq_of_lt _ (by simpa using hmlen)
    · intro w st' tr hdisp hmem
      rw [if_neg hb] at hdisp
      exact dispatch_invokeSC_clears w (pin &&& 31) cbO _ st' tr hdisp hmem
        (List.getElem?_set_eq_of_lt _ (by simpa using hmlen))

/-- Initial state for the C6 witness: one-slot bank 0, everything empty. -/
def c6S0 : GpioState Nat Nat := ⟨⟨false, [none], [none]⟩, ⟨false, [], []⟩, Regs.zero⟩

/-- State after registering the recurring callback 7 on pin 0. -/
def c6S1 : GpioState Nat Nat :=
  ⟨⟨false, [some 7], [none]⟩, ⟨false, [], []⟩, { Regs.zero with gpren0 := 1 }⟩

/-- State after then registering the one-shot callback 8 on pin 0. -/
def c6S2 : GpioState Nat Nat :=
  ⟨⟨false, [none], [some 8]⟩, ⟨false, [], []⟩, { Regs.zero with gpren0 := 1 }⟩

/-- Witness for `c6_last_registration_wins` at pin 0 with callbacks 7 and 8. -/
theorem c6_last_registration_wins_witness :
    (if (0 : Nat) < 32 then c6S2.bank0 else c6S2.bank1).scSlots[0 &&& 31]? =
      some (some 8) ∧
    (if (0 : Nat) < 32 then c6S2.bank0 else c6S2.bank1).mcSlots[0 &&& 31]? =
      some none ∧
    (∀ (w : Nat) (st' : BankState Nat Nat) (tr : List (Action Nat Nat)),
      (if (0 : Nat) < 32 then handle_gpio_bank0 w c6S2.bank0 = some (st', tr)
        else handle_gpio_bank1 w c6S2.bank1 = some (st', tr)) →
      Action.invokeSC (0 &&& 31) 8 ∈ tr →
      st'.scSlots[0 &&& 31]? = some none ∧
      st'.mcSlots[0 &&& 31]? = some none) :=
  c6_last_registration_wins 0 (by decide) .risingEdge .risingEdge 7 8
    c6S0 c6S1 c6S2 rfl rfl rfl rfl rfl

end RuspiroGpio
